import Mathlib

/-!
Verification of the specification of the monitoring-automation repository
against a shallow embedding of its code.

The embedding covers:
* `nagios_generator.py` — the topology compiler (`NagiosConfigGenerator`):
  host/contact/service compilation, the impact-tier table, id derivation,
  and the serialized artifact texts produced by `generate_all_configs`.
* `plugins/check_manager.py` — `CheckManager.get_nagios_command`, with the
  registry of check capabilities abstracted as a lookup function (a
  capability may fail, modelling a provider that raises).
* `nagiosql_adapter.py` — the reconciliation engine (`NagiosQLAdapter`).
  The module never imports `os`, so every evaluation of an `os.path.*`
  expression inside it raises `NameError`, which the `except` handlers of
  the functions convert to `False` returns.  The embeddings of its methods
  (`nagiosSyntaxValidation`, `checkIdempotencyLit`, `stageFilesForImportLit`,
  `importConfigurationsLit`) model exactly that execution.  The remote
  operations written in the bodies after the raising expression
  (`checkIdempotency`, `stageFilesForImport`) are kept, clearly marked, as
  the dead continuations of those embeddings: the source is structured to
  perform them but never reaches them.

Python dictionary lookups `d.get(k, default)` are modelled by `Option`
fields read with `Option.getD`.  Python string methods used by the code are
modelled on `String`: `str.lower` and `str.upper` by character-wise maps
(the normalisation in the code targets ASCII names), single-character
`str.replace` by a character map, and truthiness of a string by comparison
with `""`.
-/

/-- Check parameters of a dependency (`dep.get("check_params", ...)`);
only `container_name` is consulted by the compiler. -/
structure CheckParams where
  container_name : Option String
deriving DecidableEq, Repr

/-- One entry of the `dependencies` list of the topology. -/
structure Dependency where
  name : Option String
  port : Option String
  check_protocol : Option String
  impact : Option String
  check_params : CheckParams
deriving DecidableEq, Repr

/-- One entry of the `hosts` list of an environment; `htype` is the JSON key
`type`. -/
structure HostDescriptor where
  htype : Option String
  identifier : Option String
  address : Option String
deriving DecidableEq, Repr

/-- One entry of the `envs` list of the topology. -/
structure EnvData where
  name : Option String
  desc : Option String
  hosts : List HostDescriptor
deriving DecidableEq, Repr

/-- One entry of the `responsables` list of the topology. -/
structure Responsible where
  nombre : Option String
  email : Option String
deriving DecidableEq, Repr

/-- The `identification` section of the topology. -/
structure Identification where
  service_name : Option String
  priority : Option String
deriving DecidableEq, Repr

/-- The `health_api_details` section of the topology. -/
structure HealthApiDetails where
  endpoint : Option String
  interval_sec : Option Nat
deriving DecidableEq, Repr

/-- The topology document consumed by `NagiosConfigGenerator` (`self.data`).
A missing section behaves like an empty dictionary, so sections are plain
structures of `Option` fields. -/
structure TopologyData where
  identification : Identification
  responsables : List Responsible
  dependencies : List Dependency
  envs : List EnvData
  health_api : Bool
  health_api_details : HealthApiDetails
deriving DecidableEq, Repr

/-- Python `s.replace(a, b)` for single-character `a`, `b`: replace every
occurrence of the character `a` by `b`.  Implemented on the character list
(the same function as `String.map`, in a kernel-computable form). -/
def pyReplaceChar (a b : Char) (s : String) : String :=
  String.mk (s.data.map fun c => if c = a then b else c)

/-- Python `s.lower()` for the ASCII names the generator normalises
(character-wise `Char.toLower`, as `String.toLower`, in a
kernel-computable form). -/
def pyLower (s : String) : String :=
  String.mk (s.data.map Char.toLower)

/-- Python `s.upper()` for ASCII protocol names (character-wise
`Char.toUpper`, as `String.toUpper`). -/
def pyUpper (s : String) : String :=
  String.mk (s.data.map Char.toUpper)

/-- The idiom used throughout the generator: lower-case, then replace each
space by an underscore. -/
def pyLowerUnderscore (s : String) : String :=
  pyReplaceChar ' ' '_' (pyLower s)

/-- NagiosConfigGenerator._generate_host_id (nagios_generator.py lines 44-46):
the env name lower-cased, and the host id with dots and hyphens replaced
by underscores: prefix `host_`, then the two normalised parts joined by `_`.
The `host_type` parameter is accepted but unused, exactly as in the source. -/
def generateHostId (envName hostType hostId : String) : String :=
  "host_" ++ pyLower envName ++ "_" ++ pyReplaceChar '-' '_' (pyReplaceChar '.' '_' hostId)

/-- NagiosConfigGenerator._generate_service_id (lines 48-50). -/
def generateServiceId (serviceName depName envName : String) : String :=
  "svc_" ++ pyLowerUnderscore serviceName ++ "_" ++ pyLowerUnderscore depName ++ "_" ++ pyLower envName

/-- One row of `self.priority_mapping`. -/
structure PriorityConfig where
  interval : Nat
  retry : Nat
  max_attempts : Nat
deriving DecidableEq, Repr

/-- The `self.priority_mapping` dictionary (lines 29-34) as a partial lookup. -/
def priorityMapping (p : String) : Option PriorityConfig :=
  if p = "Crítica" then some ⟨60, 2, 3⟩
  else if p = "Alta" then some ⟨300, 3, 4⟩
  else if p = "Media" then some ⟨600, 5, 5⟩
  else if p = "Baja" then some ⟨1800, 10, 10⟩
  else none

/-- NagiosConfigGenerator._get_priority_config (lines 40-42):
`self.priority_mapping.get(priority, self.priority_mapping["Media"])`. -/
def getPriorityConfig (p : String) : PriorityConfig :=
  (priorityMapping p).getD ⟨600, 5, 5⟩

/-- The `get_nagios_command` method of a check capability, taking the dependency and the
`host_address` the manager enriches the config with; `Except.error` models
the provider raising. -/
abbrev Capability := Dependency → String → Except String String

/-- The resolved check table of the manager: `self.checks.get(protocol_lower)`
composed with instance construction (`get_check`); `none` covers both an
unregistered protocol and a constructor that raises. -/
abbrev Registry := String → Option Capability

/-- The port used by both fallbacks in `CheckManager.get_nagios_command`:
`dependency_config.get("port", 80)` rendered into the f-string (the source
uses single quotes). -/
def fallbackPort (dep : Dependency) : String :=
  match dep.port with
  | some p => p
  | none => "80"

/-- CheckManager.get_nagios_command (check_manager.py lines 119-146): resolve
the protocol (lower-cased, defaulting to `tcp`); if resolution fails, or the
command generation of the capability raises, return the generic TCP probe built
from the port of the dependency; this function never propagates a failure. -/
def getNagiosCommand (reg : Registry) (dep : Dependency) (hostAddress : String) : String :=
  let protocol := dep.check_protocol.getD "tcp"
  match reg (pyLower protocol) with
  | none => "check_tcp -H " ++ hostAddress ++ " -p " ++ fallbackPort dep
  | some cap =>
    match cap dep hostAddress with
    | Except.ok cmd => cmd
    | Except.error _e => "check_tcp -H " ++ hostAddress ++ " -p " ++ fallbackPort dep

/-- One element of `services_data` in `generate_services_config`. -/
structure ServiceConfig where
  service_id : String
  service_description : String
  host_name : String
  check_command : String
  check_interval : Nat
  retry_interval : Nat
  max_check_attempts : Nat
  notification_interval : Nat
  contact_groups : String
deriving DecidableEq, Repr

/-- The contact-group name: `cg_` followed by the lower-cased,
space-to-underscore service name. -/
def contactGroupsOf (serviceName : String) : String :=
  "cg_" ++ pyLowerUnderscore serviceName

/-- The health-API service built per environment (lines 203-226). -/
def mkHealthService (d : TopologyData) (env : EnvData) : ServiceConfig :=
  let serviceName := d.identification.service_name.getD "unknown"
  let endpoint := d.health_api_details.endpoint.getD ""
  let interval := d.health_api_details.interval_sec.getD 300
  let envName := env.name.getD ""
  { service_id := "svc_health_" ++ pyLowerUnderscore serviceName ++ "_" ++ pyLower envName
    service_description := "Health Check - " ++ serviceName
    host_name := "*"
    check_command := "check_http -H " ++
      ((((endpoint.replace "http://" "").replace "https://" "").splitOn "/").headD "") ++
      " -u " ++ endpoint
    check_interval := interval
    retry_interval := 60
    max_check_attempts := 3
    notification_interval := 60
    contact_groups := contactGroupsOf serviceName }

/-- The dependency service built per (dependency, environment, host) in the
inner loop of `generate_services_config` (lines 273-296). -/
def mkDepService (reg : Registry) (d : TopologyData) (dep : Dependency) (env : EnvData)
    (host : HostDescriptor) : ServiceConfig :=
  let serviceName := d.identification.service_name.getD "unknown"
  let depName := dep.name.getD ""
  let depProtocol := dep.check_protocol.getD "tcp"
  let impactConfig := getPriorityConfig (dep.impact.getD "Media")
  let envName := env.name.getD ""
  let hostAddress := host.address.getD (host.identifier.getD "")
  { service_id := generateServiceId serviceName depName envName
    service_description := depName ++ " (" ++ pyUpper depProtocol ++ ")"
    host_name := generateHostId envName (host.htype.getD "host") (host.identifier.getD "")
    check_command := getNagiosCommand reg dep hostAddress
    check_interval := impactConfig.interval
    retry_interval := impactConfig.retry
    max_check_attempts := impactConfig.max_attempts
    notification_interval := 60
    contact_groups := contactGroupsOf serviceName }

/-- The skip decision of the dependency loop (lines 255-263): a `docker`
dependency without a port is skipped unless `check_params.container_name` is
truthy; any other dependency without a port is skipped. -/
def shouldSkipDep (dep : Dependency) : Bool :=
  let depPort := dep.port.getD ""
  let depProtocol := dep.check_protocol.getD "tcp"
  if depProtocol == "docker" && depPort == "" then
    (dep.check_params.container_name.getD "") == ""
  else if depPort == "" && depProtocol != "docker" then true
  else false

/-- The health-API services emitted first by `generate_services_config`. -/
def healthServices (d : TopologyData) : List ServiceConfig :=
  if d.health_api then d.envs.map (mkHealthService d) else []

/-- The dependency services: for each non-skipped dependency, one service per
environment per host, in declaration order. -/
def depServices (reg : Registry) (d : TopologyData) (deps : List Dependency) : List ServiceConfig :=
  deps.flatMap fun dep =>
    if shouldSkipDep dep then []
    else d.envs.flatMap fun env => env.hosts.map (mkDepService reg d dep env)

/-- The `services_data` list returned by `generate_services_config`
(lines 188-317): health-API services first, then dependency services. -/
def generateServicesData (reg : Registry) (d : TopologyData) : List ServiceConfig :=
  healthServices d ++ depServices reg d d.dependencies

/-- One element of `hosts_data` in `generate_hosts_config`. -/
structure HostConfig where
  host_id : String
  host_name : String
  alias_ : String
  address : String
  env_name : String
  env_desc : String
  host_type : String
  check_interval : Nat
  retry_interval : Nat
  max_check_attempts : Nat
deriving DecidableEq, Repr

/-- The host dictionary built per (environment, host) in
`generate_hosts_config` (lines 61-95).  The `domain` branch of the source
recomputes exactly the default address and alias, so the alias reduces to
two cases. -/
def mkHostConfig (env : EnvData) (host : HostDescriptor) : HostConfig :=
  let envName := env.name.getD "unknown"
  let envDesc := env.desc.getD ""
  let hostId := generateHostId envName (host.htype.getD "host") (host.identifier.getD "")
  let hostAddress := host.address.getD (host.identifier.getD "")
  let hostAlias :=
    if host.htype == some "container" then envName ++ " - " ++ host.identifier.getD ""
    else envName ++ " - " ++ hostAddress
  { host_id := hostId
    host_name := hostId
    alias_ := hostAlias
    address := hostAddress
    env_name := envName
    env_desc := envDesc
    host_type := host.htype.getD "host"
    check_interval := 300
    retry_interval := 60
    max_check_attempts := 3 }

/-- The rendered `define host` block (the Jinja template of lines 98-113 with
its placeholders substituted). -/
def hostBlock (h : HostConfig) : String :=
  "\ndefine host \x7b\n    host_name                    " ++ h.host_id ++
  "\n    alias                        " ++ h.alias_ ++
  "\n    address                      " ++ h.address ++
  "\n    check_period                 24x7" ++
  "\n    check_interval               " ++ toString h.check_interval ++
  "\n    retry_interval               " ++ toString h.retry_interval ++
  "\n    max_check_attempts           " ++ toString h.max_check_attempts ++
  "\n    check_command                check_host_alive" ++
  "\n    notification_interval        60" ++
  "\n    notification_period          24x7" ++
  "\n    notifications_enabled        1" ++
  "\n    register                     1\n\x7d\n"

/-- NagiosConfigGenerator.generate_hosts_config (lines 52-117): the serialized
text (blocks joined with a newline) and the `hosts_data` list. -/
def generateHostsConfig (d : TopologyData) : String × List HostConfig :=
  let data := d.envs.flatMap fun env => env.hosts.map (mkHostConfig env)
  (String.intercalate "\n" (data.map hostBlock), data)

/-- One element of `contacts_data` in `generate_contacts_config`; the other
dictionary entries are constants rendered directly into the block. -/
structure ContactConfig where
  contact_id : String
  contact_name : String
  email : String
deriving DecidableEq, Repr

/-- The contact dictionary built per responsible party (lines 128-146). -/
def mkContact (r : Responsible) : ContactConfig :=
  { contact_id := "contact_" ++ pyLowerUnderscore (r.nombre.getD "")
    contact_name := r.nombre.getD ""
    email := r.email.getD "" }

/-- The rendered `define contact` block (template of lines 149-162). -/
def contactBlock (c : ContactConfig) : String :=
  "\ndefine contact \x7b\n    contact_name                 " ++ c.contact_name ++
  "\n    alias                        " ++ c.contact_name ++
  "\n    email                        " ++ c.email ++
  "\n    service_notification_period  24x7" ++
  "\n    host_notification_period     24x7" ++
  "\n    service_notification_options w,u,c,r,f,s" ++
  "\n    host_notification_options    d,u,r,f,s" ++
  "\n    service_notification_commands notify-service-by-email" ++
  "\n    host_notification_commands   notify-host-by-email" ++
  "\n    register                     1\n\x7d\n"

/-- The rendered `define contactgroup` block (template of lines 170-177);
members are the contact ids joined with commas. -/
def contactGroupBlock (cgId serviceName : String) (contacts : List ContactConfig) : String :=
  "\ndefine contactgroup \x7b\n    contactgroup_name            " ++ cgId ++
  "\n    alias                        " ++ serviceName ++ " Team" ++
  "\n    members                      " ++ String.intercalate "," (contacts.map (fun c => c.contact_id)) ++
  "\n    register                     1\n\x7d\n"

/-- NagiosConfigGenerator.generate_contacts_config (lines 119-186). -/
def generateContactsConfig (d : TopologyData) : String × List ContactConfig :=
  let data := d.responsables.map mkContact
  let serviceName := d.identification.service_name.getD "unknown"
  let cgId := "cg_" ++ pyLowerUnderscore serviceName
  (String.intercalate "\n" (data.map contactBlock ++ [contactGroupBlock cgId serviceName data]), data)

/-- The rendered `define service` block; the health template (lines 229-244)
and the dependency template (lines 298-313) are textually identical. -/
def serviceBlock (s : ServiceConfig) : String :=
  "\ndefine service \x7b\n    service_description          " ++ s.service_description ++
  "\n    host_name                    " ++ s.host_name ++
  "\n    check_command                " ++ s.check_command ++
  "\n    check_interval               " ++ toString s.check_interval ++
  "\n    retry_interval               " ++ toString s.retry_interval ++
  "\n    max_check_attempts           " ++ toString s.max_check_attempts ++
  "\n    check_period                 24x7" ++
  "\n    notification_interval        " ++ toString s.notification_interval ++
  "\n    notification_period          24x7" ++
  "\n    notifications_enabled        1" ++
  "\n    contact_groups               " ++ s.contact_groups ++
  "\n    register                     1\n\x7d\n"

/-- NagiosConfigGenerator.generate_services_config (lines 188-317). -/
def generateServicesConfig (reg : Registry) (d : TopologyData) : String × List ServiceConfig :=
  let data := generateServicesData reg d
  (String.intercalate "\n" (data.map serviceBlock), data)

/-- NagiosConfigGenerator.generate_commands_config (lines 319-378): a constant
block of standard commands. -/
def generateCommandsConfig : String :=
  "\n# Comandos estándar de Nagios\ndefine command \x7b\n    command_name    check_host_alive\n    command_line    $USER1$/check_ping -H $HOSTADDRESS$ -w 3000.0,80% -c 5000.0,100% -p 5\n\x7d\n\ndefine command \x7b\n    command_name    check_http\n    command_line    $USER1$/check_http -H $ARG1$ -u $ARG2$\n\x7d\n\ndefine command \x7b\n    command_name    check_tcp\n    command_line    $USER1$/check_tcp -H $ARG1$ -p $ARG2$\n\x7d\n\ndefine command \x7b\n    command_name    check_ping\n    command_line    $USER1$/check_ping -H $ARG1$ -w 100.0,20% -c 500.0,60% -p 5\n\x7d\n\ndefine command \x7b\n    command_name    check_dns\n    command_line    $USER1$/check_dns -H $ARG1$\n\x7d\n\ndefine command \x7b\n    command_name    check_ldap\n    command_line    $USER1$/check_ldap -H $ARG1$ -p $ARG2$\n\x7d\n\ndefine command \x7b\n    command_name    check_smtp\n    command_line    $USER1$/check_smtp -H $ARG1$ -p $ARG2$\n\x7d\n\ndefine command \x7b\n    command_name    check_mysql\n    command_line    $USER1$/check_mysql -H $ARG1$ -P $ARG2$ -u $ARG3$ -p $ARG4$\n\x7d\n\ndefine command \x7b\n    command_name    notify-host-by-email\n    command_line    /usr/bin/printf \"%b\" \"***** Nagios *****\n\nNotification Type: $NOTIFICATIONTYPE$\nHost: $HOSTNAME$\nState: $HOSTSTATE$\nAddress: $HOSTADDRESS$\nInfo: $HOSTOUTPUT$\n\nDate/Time: $LONGDATETIME$\n\" | /usr/bin/mail -s \"** $NOTIFICATIONTYPE$ Host Alert: $HOSTNAME$ is $HOSTSTATE$ **\" $CONTACTEMAIL$\n\x7d\n\ndefine command \x7b\n    command_name    notify-service-by-email\n    command_line    /usr/bin/printf \"%b\" \"***** Nagios *****\n\nNotification Type: $NOTIFICATIONTYPE$\nService: $SERVICEDESC$\nHost: $HOSTALIAS$\nAddress: $HOSTADDRESS$\nState: $SERVICESTATE$\n\nDate/Time: $LONGDATETIME$\n\nAdditional Info:\n\n$SERVICEOUTPUT$\n\" | /usr/bin/mail -s \"** $NOTIFICATIONTYPE$ Service Alert: $HOSTALIAS$/$SERVICEDESC$ is $SERVICESTATE$ **\" $CONTACTEMAIL$\n\x7d\n"

/-- The main `nagios.cfg` text of `generate_all_configs` (lines 392-406);
`now` is the rendered `datetime.now().strftime(...)` timestamp. -/
def mainCfg (d : TopologyData) (now : String) : String :=
  "\n# Configuración de Nagios generada automáticamente\n# Servicio: " ++
  d.identification.service_name.getD "Unknown" ++
  "\n# Fecha de generación: " ++ now ++
  "\n# Archivo generado por el sistema de automatización de monitorización\n\n# Configuración principal\ncfg_dir=/etc/nagios/conf.d\n\n# Incluir configuraciones generadas\ncfg_file=/etc/nagios/objects/hosts.cfg\ncfg_file=/etc/nagios/objects/services.cfg\ncfg_file=/etc/nagios/objects/contacts.cfg\ncfg_file=/etc/nagios/objects/commands.cfg\n"

/-- NagiosConfigGenerator.generate_all_configs (lines 380-432): the
`files_to_save` association of output file name to serialized content, in
the order the source writes them.  The wall-clock reading
`datetime.now()` is the explicit parameter `now`. -/
def generateAllConfigs (reg : Registry) (d : TopologyData) (now : String) : List (String × String) :=
  [("hosts.cfg", (generateHostsConfig d).1),
   ("services.cfg", (generateServicesConfig reg d).1),
   ("contacts.cfg", (generateContactsConfig d).1),
   ("commands.cfg", generateCommandsConfig),
   ("nagios.cfg", mainCfg d now)]

/-- The adapter configuration captured in `NagiosQLAdapter.__init__`
(nagiosql_adapter.py lines 34-68), restricted to the fields the file-staging
path reads; `import_session_id` is the time-derived session identifier set at
the start of `import_configurations` (line 91). -/
structure AdapterConfig where
  nagiosql_host : String
  nagiosql_user : String
  nagiosql_key_path : String
  import_directory : String
  backup_directory : String
  use_checksums : Bool
  create_backups : Bool
  validate_syntax_enabled : Bool
  notifications_enabled : Bool
  import_session_id : String
deriving DecidableEq, Repr

/-- The configuration defaults of the source (lines 44-62). -/
def defaultAdapterConfig (sessionId : String) : AdapterConfig :=
  { nagiosql_host := "localhost"
    nagiosql_user := "nagios"
    nagiosql_key_path := "~/.ssh/nagiosql_key"
    import_directory := "/var/lib/nagiosql/import"
    backup_directory := "/var/lib/nagiosql/backup"
    use_checksums := true
    create_backups := true
    validate_syntax_enabled := true
    notifications_enabled := true
    import_session_id := sessionId }

/-- Meaning of `os.path.join(base, name)` for the directory layouts the
adapter uses (absolute base with no trailing separator, relative name). -/
def pathJoin (a b : String) : String :=
  a ++ "/" ++ b

/-- The remote filesystem visible over SSH or SFTP: a map from absolute path
to file content. -/
abbrev RemoteState := String → Option String

/-- One remote side effect performed by `_stage_files_for_import`:
directory creation, the guarded backup copy `cp src dst 2>/dev/null || true`,
an SFTP file write, or the permission and ownership commands. -/
inductive RemoteOp where
  | mkdirP (dir : String)
  | cpIfExists (src dst : String)
  | sftpWrite (path content : String)
  | chmod644 (paths : List String)
  | chownNagios (paths : List String)
deriving DecidableEq, Repr

/-- Comparison logic written in the body of `_check_idempotency` after the
`ssh.connect` argument evaluation (lines 207-244): for each artifact that
exists at `import_directory/<name>`, compare the MD5 of the local content
with the MD5 of the remote content (the remote `md5sum` of a file is the
hash of its content); the conflict list is empty exactly when every present
artifact matches.  The hash is the explicit parameter `md5`.  In the source
this code is unreachable — evaluating `os.path.expanduser` at line 203
raises NameError first — and it appears here only as the dead continuation
of `checkIdempotencyLit`, the embedding of the method as executed. -/
def checkIdempotency (md5 : String → String) (cfg : AdapterConfig) (st : RemoteState)
    (files : List (String × String)) : Bool :=
  let conflicts := files.filter fun fc =>
    match st (pathJoin cfg.import_directory fc.1) with
    | none => false
    | some remoteContent => md5 fc.2 != md5 remoteContent
  conflicts.isEmpty

/-- Remote-operation sequence written in the body of
`_stage_files_for_import` after the `ssh.connect` argument evaluation
(lines 273-316), in source order: create the session directory; if backups
are enabled, create the backup directory and copy every pre-existing
artifact from the import directory into it; only then write each artifact
(session copy, then a live copy for the import) and adjust permissions and
ownership.  In the source this code is unreachable — evaluating
`os.path.expanduser` at line 269 raises NameError first — and it appears
here only as the dead continuation of `stageFilesForImportLit`, the
embedding of the method as executed. -/
def stageFilesForImport (cfg : AdapterConfig) (files : List (String × String)) : List RemoteOp :=
  let sessionDir := pathJoin cfg.import_directory cfg.import_session_id
  let backupDir := pathJoin cfg.backup_directory cfg.import_session_id
  RemoteOp.mkdirP sessionDir ::
    ((if cfg.create_backups then
        RemoteOp.mkdirP backupDir ::
          files.map (fun fc =>
            RemoteOp.cpIfExists (pathJoin cfg.import_directory fc.1) (pathJoin backupDir fc.1))
      else []) ++
     files.flatMap (fun fc =>
       [RemoteOp.sftpWrite (pathJoin sessionDir fc.1) fc.2,
        RemoteOp.sftpWrite (pathJoin cfg.import_directory fc.1) fc.2,
        RemoteOp.chmod644 [pathJoin sessionDir fc.1, pathJoin cfg.import_directory fc.1],
        RemoteOp.chownNagios [pathJoin sessionDir fc.1, pathJoin cfg.import_directory fc.1]]))

/-- Exceptions relevant to the handlers of the adapter: the Python exceptions `NameError`,
`FileNotFoundError` and `subprocess.TimeoutExpired`. -/
inductive PyExn where
  | nameError
  | fileNotFound
  | timeout
deriving DecidableEq, Repr

/-- Evaluation of an `os.path.join(...)` expression inside
`nagiosql_adapter.py`: the module imports `json`, `logging`, `requests`,
`typing`, `datetime`, `hashlib` and `re` (lines 8-14) but never `os`, so the
lookup of the bare name `os` raises `NameError` before the arguments matter. -/
def osPathJoinNA (_a _b : String) : Except PyExn String :=
  Except.error PyExn.nameError

/-- Evaluation of an `os.path.expanduser(...)` expression inside
`nagiosql_adapter.py`; as with `osPathJoinNA`, the unbound name `os` raises
`NameError`. -/
def osPathExpanduserNA (_p : String) : Except PyExn String :=
  Except.error PyExn.nameError

/-- Behaviour of `subprocess.run` invoking `nagios -v` on the controlling
host: the binary may be absent (`FileNotFoundError`), the run may exceed the
30-second timeout, or it may return an exit code. -/
inductive NagiosRun where
  | unavailable
  | timesOut
  | returns (rc : Int)
deriving DecidableEq, Repr

/-- Body of the `try` block of `_validate_nagios_syntax` (lines 134-172):
write each artifact under the temporary directory — each iteration first
evaluates `os.path.join(temp_dir, filename)` (line 142) — then build
`nagios.cfg` (another `os.path.join`, line 151), run `nagios -v`, and return
whether the exit code is zero. -/
def nagiosSyntaxValidationBody (files : List (String × String)) (env : NagiosRun) :
    Except PyExn Bool := do
  let tempDir := "/tmp/tmpdir"
  for fc in files do
    let _filepath ← osPathJoinNA tempDir fc.1
    pure ()
  let _nagiosCfgPath ← osPathJoinNA tempDir "nagios.cfg"
  match env with
  | NagiosRun.unavailable => throw PyExn.fileNotFound
  | NagiosRun.timesOut => throw PyExn.timeout
  | NagiosRun.returns rc => pure (rc == 0)

/-- NagiosQLAdapter._validate_nagios_syntax (lines 125-182) with its handler
cascade (lines 174-182): `TimeoutExpired` gives `False`, `FileNotFoundError`
(nagios binary absent) gives `True` — skip validation and proceed — and any
other exception, `NameError` included, gives `False`. -/
def nagiosSyntaxValidation (files : List (String × String)) (env : NagiosRun) : Bool :=
  match nagiosSyntaxValidationBody files env with
  | Except.ok ok => ok
  | Except.error PyExn.timeout => false
  | Except.error PyExn.fileNotFound => true
  | Except.error PyExn.nameError => false

/-- NagiosQLAdapter._check_idempotency, literal-execution view: the
first environment access of the body is `os.path.expanduser(self.nagiosql_key_path)`
inside `ssh.connect(...)` (line 203); it raises `NameError` before the SSH
connection is attempted, and the catch-all handler (line 246) returns
`False`.  Were the evaluation to succeed, the body would compute
`checkIdempotency`. -/
def checkIdempotencyLit (md5 : String → String) (cfg : AdapterConfig) (st : RemoteState)
    (files : List (String × String)) : Bool :=
  let body : Except PyExn Bool := do
    let _keyfile ← osPathExpanduserNA cfg.nagiosql_key_path
    pure (checkIdempotency md5 cfg st files)
  match body with
  | Except.ok ok => ok
  | Except.error _e => false

/-- NagiosQLAdapter._stage_files_for_import, literal-execution view: the
first environment access of the body is again `os.path.expanduser` inside
`ssh.connect(...)` (line 269), raising `NameError` before any remote
operation; the handler (line 322) returns `False`.  Were the evaluation to
succeed, the body would perform the `stageFilesForImport` trace. -/
def stageFilesForImportLit (cfg : AdapterConfig) (files : List (String × String)) :
    Bool × List RemoteOp :=
  let body : Except PyExn (List RemoteOp) := do
    let _keyfile ← osPathExpanduserNA cfg.nagiosql_key_path
    pure (stageFilesForImport cfg files)
  match body with
  | Except.ok ops => (true, ops)
  | Except.error _e => (false, [])

/-- NagiosQLAdapter.import_configurations (lines 73-123), literal-execution
view: step 1 aborts when validation is enabled and fails; the result of step 2 is
only logged; step 3 returning `False` aborts the run.  The second component
is the trace of remote operations actually performed. -/
def importConfigurationsLit (cfg : AdapterConfig) (env : NagiosRun) (md5 : String → String)
    (st : RemoteState) (files : List (String × String)) : Bool × List RemoteOp :=
  if cfg.validate_syntax_enabled && !nagiosSyntaxValidation files env then (false, [])
  else
    let _idem := checkIdempotencyLit md5 cfg st files
    match stageFilesForImportLit cfg files with
    | (true, ops) => (true, ops)
    | (false, _) => (false, [])

/-- A registry with no resolvable protocol (every lookup misses). -/
def regEmpty : Registry := fun _ => none

/-- A registry whose `tcp` capability always raises, for exercising the
exception fallback of the manager. -/
def regFailTcp : Registry :=
  fun p => if p = "tcp" then some (fun _ _ => Except.error "boom") else none

/-- Concrete stand-in content hash used to instantiate closed statements;
the reconciliation theorems quantify over the hash function. -/
def md5Id : String → String := fun s => s

/-- A remote target holding nothing. -/
def stEmpty : RemoteState := fun _ => none

/-- The dependency of test scenario A: protocol `tcp`, port `80`,
impact `Alta`. -/
def scenarioDependency : Dependency :=
  { name := some "Dep1"
    port := some "80"
    check_protocol := some "tcp"
    impact := some "Alta"
    check_params := ⟨none⟩ }

/-- Scenario A topology: two environments of three hosts each, one
dependency, no health API. -/
def scenarioTopology : TopologyData :=
  { identification := { service_name := some "Svc", priority := some "Media" }
    responsables := []
    dependencies := [scenarioDependency]
    envs :=
      [{ name := some "EnvA", desc := some "",
         hosts := [⟨some "host", some "a1", some "10.0.0.1"⟩,
                   ⟨some "host", some "a2", some "10.0.0.2"⟩,
                   ⟨some "host", some "a3", some "10.0.0.3"⟩] },
       { name := some "EnvB", desc := some "",
         hosts := [⟨some "host", some "b1", some "10.0.1.1"⟩,
                   ⟨some "host", some "b2", some "10.0.1.2"⟩,
                   ⟨some "host", some "b3", some "10.0.1.3"⟩] }]
    health_api := false
    health_api_details := { endpoint := none, interval_sec := none } }

/-- A topology with every section empty. -/
def trivialTopology : TopologyData :=
  { identification := { service_name := none, priority := none }
    responsables := []
    dependencies := []
    envs := []
    health_api := false
    health_api_details := { endpoint := none, interval_sec := none } }

/-- A `tcp` dependency that declares no port. -/
def depNoPort : Dependency :=
  { name := some "NoPort"
    port := none
    check_protocol := some "tcp"
    impact := some "Alta"
    check_params := ⟨none⟩ }

/-- A dependency with a declared port, for the fallback witnesses. -/
def depLdap : Dependency :=
  { name := some "LDAP"
    port := some "5032"
    check_protocol := some "tcp"
    impact := some "Alta"
    check_params := ⟨none⟩ }

/-- Adapter configuration of a concrete staging session: source defaults
except that syntax validation is disabled, so a run proceeds past step 1 to
the idempotency check and staging. -/
def cfgSessNoValidate : AdapterConfig :=
  { defaultAdapterConfig "sess_1" with validate_syntax_enabled := false }

/-- A remote target whose import directory already holds an older
`hosts.cfg`. -/
def stHostsOld : RemoteState :=
  fun p => if p = "/var/lib/nagiosql/import/hosts.cfg" then some "old content" else none

/-- A staged artifact set meant to replace the pre-existing `hosts.cfg`. -/
def filesHostsNew : List (String × String) := [("hosts.cfg", "new content")]

/-- A common left factor of a string equation cancels. -/
theorem str_append_cancel_left (a : String) {b c : String} (h : a ++ b = a ++ c) : b = c := by
  apply String.ext
  have hd := congrArg String.data h
  simp only [String.data_append] at hd
  exact List.append_cancel_left hd

/-- A common right factor of a string equation cancels. -/
theorem str_append_cancel_right (c : String) {a b : String} (h : a ++ c = b ++ c) : a = b := by
  apply String.ext
  have hd := congrArg String.data h
  simp only [String.data_append] at hd
  exact List.append_cancel_right hd

/-- The main `nagios.cfg` text determines the embedded generation
timestamp. -/
theorem mainCfg_eq_iff (d : TopologyData) (t₁ t₂ : String) :
    mainCfg d t₁ = mainCfg d t₂ ↔ t₁ = t₂ := by
  constructor
  · intro h
    unfold mainCfg at h
    have h2 := str_append_cancel_right _ h
    exact str_append_cancel_left _ h2
  · intro h
    rw [h]

/-- Claim C1.  For every mapping of artifact names to contents, every
adapter configuration, every remote state and every behaviour of the nagios
binary, a run of `import_configurations` performs zero staging writes: its
trace of remote operations is empty, so no file in the import directory is
rewritten — in particular whenever every artifact already present on the
remote target matches the local content.  Validation fails on the unbound
`os` name, and even with validation disabled the staging body raises
NameError at the `ssh.connect` argument (line 269) before any remote
operation and returns False; the idempotency check fails the same way
(line 203) and never reports a conflict-free match. -/
theorem import_run_performs_zero_staging_writes (cfg : AdapterConfig) (env : NagiosRun)
    (md5 : String → String) (st : RemoteState) (files : List (String × String)) :
    importConfigurationsLit cfg env md5 st files = (false, []) ∧
    stageFilesForImportLit cfg files = (false, []) ∧
    checkIdempotencyLit md5 cfg st files = false := by
  refine ⟨?_, rfl, rfl⟩
  have hv : nagiosSyntaxValidation files env = false := by
    cases files with
    | nil => rfl
    | cons fc rest => rfl
  unfold importConfigurationsLit
  rw [hv]
  cases hb : cfg.validate_syntax_enabled <;> rfl

/-- Claim C2, a code bug with the same underlying slip as claim C9.
The specification and the structure of `_stage_files_for_import` — the
backup loop of lines 278-286 precedes the write loop of lines 288-305 —
intend the backup copy of every pre-existing artifact to be performed
strictly before its overwrite in the live import location.  The shipped
code performs neither: the unbound name `os` raises NameError at the
`ssh.connect` argument (line 269) before any remote operation, and the
handler at line 322 returns False.  This theorem evaluates the embedding at
the failing input — a session with backups enabled and validation disabled,
against a target already holding `hosts.cfg` — and shows the run reaches
staging, performs zero remote operations (no backup copy, no overwrite) and
fails. -/
theorem backup_and_overwrite_never_performed :
    cfgSessNoValidate.create_backups = true ∧
    stHostsOld (pathJoin cfgSessNoValidate.import_directory "hosts.cfg") = some "old content" ∧
    stageFilesForImportLit cfgSessNoValidate filesHostsNew = (false, []) ∧
    importConfigurationsLit cfgSessNoValidate (NagiosRun.returns 0) md5Id stHostsOld
      filesHostsNew = (false, []) :=
  ⟨rfl, by decide, rfl, rfl⟩

/-- Claim C3.  With syntax validation enabled (the default), for every
artifact mapping and every behaviour of the nagios binary, the validation
helper returns False — the module never imports `os`, so the `os.path`
evaluations raise NameError, which the catch-all handler converts into a
failed validation — and `import_configurations` therefore returns False with
an empty trace of remote operations, aborting before the idempotency check
and staging. -/
theorem missing_os_import_aborts_run (cfg : AdapterConfig) (env : NagiosRun)
    (md5 : String → String) (st : RemoteState) (files : List (String × String))
    (h : cfg.validate_syntax_enabled = true) :
    nagiosSyntaxValidation files env = false ∧
    importConfigurationsLit cfg env md5 st files = (false, []) := by
  have hv : nagiosSyntaxValidation files env = false := by
    cases files with
    | nil => rfl
    | cons fc rest => rfl
  refine ⟨hv, ?_⟩
  unfold importConfigurationsLit
  rw [h, hv]
  rfl

/-- Claim C3, witness: a one-artifact import with the source-default
configuration and a nagios binary that would report success. -/
theorem missing_os_import_aborts_run_witness :
    nagiosSyntaxValidation [("hosts.cfg", "define host \x7b\n\x7d\n")] (NagiosRun.returns 0) =
      false ∧
    importConfigurationsLit (defaultAdapterConfig "sess_demo") (NagiosRun.returns 0) md5Id
      stEmpty [("hosts.cfg", "define host \x7b\n\x7d\n")] = (false, []) :=
  missing_os_import_aborts_run (defaultAdapterConfig "sess_demo") (NagiosRun.returns 0) md5Id
    stEmpty [("hosts.cfg", "define host \x7b\n\x7d\n")] rfl

/-- Claim C4, counterexample.  The claim states that compiling an identical
topology twice yields byte-identical serialized artifacts for every output
file, the main index file included.  Two runs of `generate_all_configs` at
different wall-clock seconds produce different `nagios.cfg` contents, because
the main file embeds the generation timestamp. -/
theorem compile_twice_timestamp_differs_cex :
    generateAllConfigs regEmpty trivialTopology "2025-01-01 00:00:00" ≠
    generateAllConfigs regEmpty trivialTopology "2025-01-01 00:00:01" := by
  intro h
  simp only [generateAllConfigs, List.cons.injEq, Prod.mk.injEq] at h
  have ht := (mainCfg_eq_iff trivialTopology "2025-01-01 00:00:00" "2025-01-01 00:00:01").mp
    h.2.2.2.2.1.2
  exact absurd ht (by decide)

/-- Claim C4, amended.  Compiling an identical topology twice against the
same registry yields byte-identical `hosts.cfg`, `services.cfg`,
`contacts.cfg` and `commands.cfg`; the main `nagios.cfg` index file is
byte-identical exactly when the two rendered generation timestamps
coincide. -/
theorem compile_deterministic_except_main_timestamp :
    ∀ (reg : Registry) (d : TopologyData) (t₁ t₂ : String),
      ((generateAllConfigs reg d t₁).take 4 = (generateAllConfigs reg d t₂).take 4) ∧
      (mainCfg d t₁ = mainCfg d t₂ ↔ t₁ = t₂) :=
  fun _reg d t₁ t₂ => ⟨rfl, mainCfg_eq_iff d t₁ t₂⟩

/-- Claim C4, witness: the amended theorem applied to a concrete topology
and two concrete timestamps. -/
theorem compile_deterministic_except_main_timestamp_witness :
    ((generateAllConfigs regEmpty scenarioTopology "2025-06-30 10:00:00").take 4 =
      (generateAllConfigs regEmpty scenarioTopology "2025-06-30 10:00:07").take 4) ∧
    (mainCfg scenarioTopology "2025-06-30 10:00:00" = mainCfg scenarioTopology "2025-06-30 10:00:07" ↔
      "2025-06-30 10:00:00" = "2025-06-30 10:00:07") :=
  compile_deterministic_except_main_timestamp regEmpty scenarioTopology
    "2025-06-30 10:00:00" "2025-06-30 10:00:07"

/-- Claim C5.  The impact-tier table is exactly the specified 4-tier table
(Crítica 60/2/3, Alta 300/3/4, Media 600/5/5, Baja 1800/10/10), every
unrecognized tier resolves to the Media row 600/5/5, every compiled
dependency service carries the table row of its declared impact, and the
scenario-A topology (2 environments of 3 hosts, one tcp dependency on port
80 with impact Alta) compiles to exactly 6 services, each with
interval 300, retry 3, max attempts 4. -/
theorem scenario_a_and_impact_tier_table :
    (getPriorityConfig "Crítica" = ⟨60, 2, 3⟩ ∧ getPriorityConfig "Alta" = ⟨300, 3, 4⟩ ∧
     getPriorityConfig "Media" = ⟨600, 5, 5⟩ ∧ getPriorityConfig "Baja" = ⟨1800, 10, 10⟩) ∧
    (∀ p : String, p ≠ "Crítica" → p ≠ "Alta" → p ≠ "Media" → p ≠ "Baja" →
      getPriorityConfig p = ⟨600, 5, 5⟩) ∧
    (∀ (reg : Registry) (d : TopologyData) (dep : Dependency) (env : EnvData)
        (host : HostDescriptor),
      (mkDepService reg d dep env host).check_interval =
        (getPriorityConfig (dep.impact.getD "Media")).interval ∧
      (mkDepService reg d dep env host).retry_interval =
        (getPriorityConfig (dep.impact.getD "Media")).retry ∧
      (mkDepService reg d dep env host).max_check_attempts =
        (getPriorityConfig (dep.impact.getD "Media")).max_attempts) ∧
    (∀ reg : Registry, (generateServicesData reg scenarioTopology).length = 6 ∧
      ∀ s ∈ generateServicesData reg scenarioTopology,
        s.check_interval = 300 ∧ s.retry_interval = 3 ∧ s.max_check_attempts = 4) := by
  refine ⟨⟨rfl, rfl, rfl, rfl⟩, ?_, ?_, ?_⟩
  · intro p h1 h2 h3 h4
    unfold getPriorityConfig priorityMapping
    rw [if_neg h1, if_neg h2, if_neg h3, if_neg h4]
    rfl
  · intro reg d dep env host
    exact ⟨rfl, rfl, rfl⟩
  · intro reg
    refine ⟨rfl, ?_⟩
    have hall : (generateServicesData reg scenarioTopology).all
        (fun s => s.check_interval == 300 &&
          (s.retry_interval == 3 && s.max_check_attempts == 4)) = true := rfl
    intro s hs
    have h2 := List.all_eq_true.mp hall s hs
    simp only [Bool.and_eq_true, beq_iff_eq] at h2
    exact ⟨h2.1, h2.2.1, h2.2.2⟩

/-- Claim C5, witness: an unrecognized tier resolves to the Media row, and
the scenario-A compilation has 6 services. -/
theorem scenario_a_and_impact_tier_table_witness :
    getPriorityConfig "Desconocida" = ⟨600, 5, 5⟩ ∧
    (generateServicesData regEmpty scenarioTopology).length = 6 :=
  ⟨scenario_a_and_impact_tier_table.2.1 "Desconocida" (by decide) (by decide) (by decide)
      (by decide),
   (scenario_a_and_impact_tier_table.2.2.2 regEmpty).1⟩

/-- Claim C6, counterexample.  The claim states that the compiled host id
normalizes both components to lower case with every non-alphanumeric
character replaced by an underscore, and that changing only the environment
name changes the id.  In the code only the environment name is lower-cased
and only dots and hyphens in the host identifier are replaced: changing the
environment name from PROD to prod leaves the id unchanged, and a space in
the identifier survives unreplaced. -/
theorem host_id_spec_normalization_cex :
    generateHostId "PROD" "host" "web.srv-1" = generateHostId "prod" "host" "web.srv-1" ∧
    generateHostId "prod" "host" "a b" = "host_prod_a b" := by
  constructor
  · decide
  · decide

/-- Claim C6, amended.  The compiled host id is a pure function of the
environment name and host identifier (the host type is ignored): it is the
prefix `host_`, the lower-cased environment name, an underscore, and the
identifier with dots and hyphens replaced by underscores; two invocations
produce the same id exactly when the lower-cased environment names agree,
so the id is stable across runs and changing the environment name changes
the id only up to letter case. -/
theorem host_id_actual_normalization :
    (∀ e ht h, generateHostId e ht h =
      "host_" ++ pyLower e ++ "_" ++ pyReplaceChar '-' '_' (pyReplaceChar '.' '_' h)) ∧
    (∀ e₁ e₂ ht₁ ht₂ h, generateHostId e₁ ht₁ h = generateHostId e₂ ht₂ h ↔
      pyLower e₁ = pyLower e₂) := by
  refine ⟨fun e ht h => rfl, fun e₁ e₂ ht₁ ht₂ h => ?_⟩
  constructor
  · intro heq
    unfold generateHostId at heq
    have h2 := str_append_cancel_right _ heq
    have h3 := str_append_cancel_right _ h2
    exact str_append_cancel_left _ h3
  · intro heq
    unfold generateHostId
    rw [heq]

/-- Claim C6, witness: two environment spellings agreeing up to case give
the same host id. -/
theorem host_id_actual_normalization_witness :
    generateHostId "Prod" "container" "db.main" = generateHostId "PROD" "host" "db.main" :=
  (host_id_actual_normalization.2 "Prod" "PROD" "container" "host" "db.main").mpr (by decide)

/-- Claim C7.  Command rendering is a total function that never propagates a
provider failure: whenever the protocol of the dependency does not resolve in
the registry, or the resolved capability raises during command generation,
the result is the generic TCP probe built from the declared port of the
dependency (with the source default 80 when no port is declared). -/
theorem render_command_fallback_total :
    ∀ (reg : Registry) (dep : Dependency) (addr : String),
      (reg (pyLower (dep.check_protocol.getD "tcp")) = none →
        getNagiosCommand reg dep addr = "check_tcp -H " ++ addr ++ " -p " ++ fallbackPort dep) ∧
      (∀ cap e, reg (pyLower (dep.check_protocol.getD "tcp")) = some cap →
        cap dep addr = Except.error e →
        getNagiosCommand reg dep addr = "check_tcp -H " ++ addr ++ " -p " ++ fallbackPort dep) ∧
      fallbackPort dep = dep.port.getD "80" := by
  intro reg dep addr
  refine ⟨?_, ?_, ?_⟩
  · intro h
    simp only [getNagiosCommand, h]
  · intro cap e h1 h2
    simp only [getNagiosCommand, h1, h2]
  · unfold fallbackPort
    cases dep.port <;> rfl

/-- Claim C7, witness: the fallback fires both for an empty registry and for
a capability that raises, and the rendered probe uses the declared port. -/
theorem render_command_fallback_total_witness :
    getNagiosCommand regEmpty depLdap "10.0.0.1" = "check_tcp -H 10.0.0.1 -p 5032" ∧
    getNagiosCommand regFailTcp depLdap "10.0.0.1" = "check_tcp -H 10.0.0.1 -p 5032" :=
  ⟨(render_command_fallback_total regEmpty depLdap "10.0.0.1").1 rfl,
   (render_command_fallback_total regFailTcp depLdap "10.0.0.1").2.1
     (fun _ _ => Except.error "boom") "boom" rfl rfl⟩

/-- Claim C8.  A dependency that the skip test rejects contributes no service
to the compiled list while every other dependency of the topology compiles
unchanged — the skip is never fatal — and the skip test holds exactly for a
non-docker dependency without a port, or a docker dependency with neither a
port nor a container_name check parameter. -/
theorem skip_dependency_missing_param :
    (∀ (reg : Registry) (d : TopologyData) (pre post : List Dependency) (dep : Dependency),
      shouldSkipDep dep = true →
      generateServicesData reg { d with dependencies := pre ++ dep :: post } =
      generateServicesData reg { d with dependencies := pre ++ post }) ∧
    (∀ dep : Dependency, shouldSkipDep dep = true ↔
      ((dep.check_protocol.getD "tcp" ≠ "docker" ∧ dep.port.getD "" = "") ∨
       (dep.check_protocol.getD "tcp" = "docker" ∧ dep.port.getD "" = "" ∧
        dep.check_params.container_name.getD "" = ""))) := by
  constructor
  · intro reg d pre post dep h
    unfold generateServicesData
    congr 1
    unfold depServices
    rw [List.flatMap_append, List.flatMap_append, List.flatMap_cons, h]
    simp only [if_true]
    rw [List.nil_append]
    rfl
  · intro dep
    unfold shouldSkipDep
    by_cases hp : dep.check_protocol.getD "tcp" = "docker" <;>
      by_cases hq : dep.port.getD "" = "" <;>
      by_cases hc : dep.check_params.container_name.getD "" = "" <;>
      simp [hp, hq, hc]

/-- Claim C8, witness: inserting a portless tcp dependency before the
scenario dependency leaves the compiled service list unchanged. -/
theorem skip_dependency_missing_param_witness :
    shouldSkipDep depNoPort = true ∧
    generateServicesData regEmpty
        { scenarioTopology with dependencies := [] ++ depNoPort :: [scenarioDependency] } =
      generateServicesData regEmpty
        { scenarioTopology with dependencies := [] ++ [scenarioDependency] } :=
  ⟨by decide,
   skip_dependency_missing_param.1 regEmpty scenarioTopology [] [scenarioDependency] depNoPort
     (by decide)⟩

/-- Claim C9.  The specification records the intended policy that an absent
nagios binary on the controlling host skips validation and proceeds (the
FileNotFoundError handler of `_validate_nagios_syntax` returns True).  The
code cannot reach that handler: the unbound name `os` raises NameError at
the first `os.path.join`, the catch-all returns False, and the run aborts.
This theorem evaluates the embedded code at the failing input — a
one-artifact import with the nagios binary unavailable. -/
theorem nagios_unavailable_validation_still_fails :
    nagiosSyntaxValidation [("services.cfg", "define service \x7b\n\x7d\n")]
      NagiosRun.unavailable = false ∧
    importConfigurationsLit (defaultAdapterConfig "sess_try") NagiosRun.unavailable md5Id
      stEmpty [("services.cfg", "define service \x7b\n\x7d\n")] = (false, []) :=
  ⟨rfl, rfl⟩

/-- Claim C10.  The compiled service id ignores the host: for any dependency,
environment and any two hosts, the dependency services compiled for the two
hosts carry the same service id, which is derived only from the service
name, dependency name and environment name; consequently, in the scenario-A
compilation the six services carry only two distinct ids, one repeated per
host of each environment. -/
theorem service_id_ignores_host :
    (∀ (reg : Registry) (d : TopologyData) (dep : Dependency) (env : EnvData)
        (h₁ h₂ : HostDescriptor),
      (mkDepService reg d dep env h₁).service_id = (mkDepService reg d dep env h₂).service_id) ∧
    (∀ (reg : Registry) (d : TopologyData) (dep : Dependency) (env : EnvData)
        (host : HostDescriptor),
      (mkDepService reg d dep env host).service_id =
        generateServiceId (d.identification.service_name.getD "unknown") (dep.name.getD "")
          (env.name.getD "")) ∧
    (generateServicesData regEmpty scenarioTopology).map (fun s => s.service_id) =
      ["svc_svc_dep1_enva", "svc_svc_dep1_enva", "svc_svc_dep1_enva",
       "svc_svc_dep1_envb", "svc_svc_dep1_envb", "svc_svc_dep1_envb"] :=
  ⟨fun _reg _d _dep _env _h₁ _h₂ => rfl, fun _reg _d _dep _env _host => rfl, by decide⟩
